import Mathlib

set_option maxRecDepth 4000

/-
  Verification development for the 6-DOF HIL flight dynamics simulator.

  The definitions below are a shallow embedding of the simulator's core:
  the HIL loop controller (Drone.cpp, corrector variant), the ground-contact
  corrector, and the sensor-encoder layer (DroneStateEncoder.h).
  Machine floating point is idealised as real (ℝ) respectively rational (ℚ)
  arithmetic; integer casts are modelled explicitly.
-/

/- ========================================================================
   Part 1: HIL loop controller (Drone.cpp, ground-corrector variant).

   The loop-level model tracks the fields of the controller state that the
   control flow reads or writes: the lockstep flag, the actuator-message
   counter, the SYSTEM_TIME throttle counter, the armed flag, the telemetry
   frequency and timestamps, and the three actuator controller setpoints.
   The dynamics state is abstract (type parameter σ): DynamicObject::update
   (the RK integrator) and the sensor readings feeding the corrector live in
   the caelus_fdm package, which is outside the sources at hand; the loop
   claims only concern gating, dispatch and ordering, which are independent
   of the dynamics detail.  Outbound MAVLink frames are modelled as tags
   (payload synthesis is modelled separately in Part 2).
   ======================================================================== -/

/-- Inbound MAVLink frames dispatched by Drone::_process_mavlink_message. -/
inductive InMsg : Type
| heartbeat : InMsg
| hilActuatorControls (mode : Nat) (controls : Fin 16 → ℚ) : InMsg
| commandLong (cmd : Nat) (p1 p2 : ℚ) (tsys tcomp : Nat) : InMsg
| unknown : InMsg

/-- Outbound MAVLink frames enqueued on the relay. -/
inductive OutMsg : Type
| hilGps : OutMsg
| hilSensor : OutMsg
| hilStateQuaternion : OutMsg
| systemTime : OutMsg
| commandAck (cmd : Nat) (result : Nat) : OutMsg
deriving DecidableEq

/-- Phases of one tick of Drone::update, in the order the source calls them. -/
inductive Phase : Type
| integrate : Phase
| correct : Phase
| drain : Phase
| publish : Phase
deriving DecidableEq

/-- MAV_CMD_SET_MESSAGE_INTERVAL command id from the MAVLink common dialect. -/
def MAV_CMD_SET_MESSAGE_INTERVAL : Nat := 511

/-- MAV_MODE_FLAG_SAFETY_ARMED mode bit from the MAVLink common dialect. -/
def MAV_MODE_FLAG_SAFETY_ARMED : Nat := 128

/-- Controller-visible state of the Drone (corrector variant), with the
dynamics state abstracted to σ.  `connection_open` is the snapshot of
MAVLinkMessageRelay::connection_open consulted during the tick; `time` is the
clock value (µs) returned by Clock::get_current_time_us. -/
structure LoopState (σ : Type) where
  dyn : σ
  connection_open : Bool
  should_reply_lockstep : Bool
  hil_actuator_controls_msg_n : Nat
  sys_time_throttle_counter : Nat
  armed : Bool
  hil_state_quaternion_message_frequency : ℚ
  last_autopilot_telemetry : ℚ
  time : ℚ
  thrust_propellers : Fin 1 → ℚ
  ailerons : Fin 2 → ℚ
  vtol_propellers : Fin 4 → ℚ

/-- Drone::_process_command_long_message (corrector variant): dispatch on the
command id; MAV_CMD_SET_MESSAGE_INTERVAL stores param2 into
hil_state_quaternion_message_frequency, any other id only logs; in both cases
exactly one COMMAND_ACK with result 0 is enqueued. -/
def Drone.process_command_long {σ : Type} (s : LoopState σ)
    (cmd : Nat) (_p1 p2 : ℚ) (_tsys _tcomp : Nat) : LoopState σ × List OutMsg :=
  ({ s with hil_state_quaternion_message_frequency :=
      if cmd = MAV_CMD_SET_MESSAGE_INTERVAL then p2
      else s.hil_state_quaternion_message_frequency },
   [OutMsg.commandAck cmd 0])

/-- Drone::_process_hil_actuator_controls (corrector variant): set the
lockstep flag, bump the message counter, set `armed` from the SAFETY_ARMED
mode bit, and split the 16 channels into the three controller setpoints. -/
def Drone.process_hil_actuator_controls {σ : Type} (s : LoopState σ)
    (mode : Nat) (controls : Fin 16 → ℚ) : LoopState σ :=
  { s with
    should_reply_lockstep := true
    hil_actuator_controls_msg_n := s.hil_actuator_controls_msg_n + 1
    armed := decide (0 < mode &&& MAV_MODE_FLAG_SAFETY_ARMED)
    vtol_propellers := fun i => controls ⟨i.val, by omega⟩
    ailerons := fun i => controls ⟨4 + i.val, by omega⟩
    thrust_propellers := fun i => controls ⟨8 + i.val, by omega⟩ }

/-- Drone::_process_mavlink_message: dispatch one inbound frame by message id.
HEARTBEAT and unknown ids are only logged. -/
def Drone.process_mavlink_message {σ : Type} (s : LoopState σ) :
    InMsg → LoopState σ × List OutMsg
| InMsg.heartbeat => (s, [])
| InMsg.hilActuatorControls mode controls =>
    (Drone.process_hil_actuator_controls s mode controls, [])
| InMsg.commandLong cmd p1 p2 tsys tcomp =>
    Drone.process_command_long s cmd p1 p2 tsys tcomp
| InMsg.unknown => (s, [])

/-- Drone::_process_mavlink_messages: drain the inbound queue in order,
collecting every frame enqueued on the relay while processing. -/
def Drone.process_mavlink_messages {σ : Type} :
    List InMsg → LoopState σ → LoopState σ × List OutMsg
| [], s => (s, [])
| m :: rest, s =>
    let r := Drone.process_mavlink_message s m
    let r' := Drone.process_mavlink_messages rest r.1
    (r'.1, r.2 ++ r'.2)

/-- Drone::_publish_state: return unless the relay is open and the lockstep
gate (should_reply_lockstep ∨ hil_actuator_controls_msg_n < 300) passes;
otherwise unlock the clock, emit SYSTEM_TIME when the post-incremented
throttle counter test `counter++ % 1000` is nonzero, always emit HIL_GPS and
HIL_SENSOR, clear the lockstep flag, and emit HIL_STATE_QUATERNION when the
telemetry period has elapsed. -/
def Drone.publish_state {σ : Type} (s : LoopState σ) : LoopState σ × List OutMsg :=
  if ¬ s.connection_open then (s, [])
  else if ¬ (s.should_reply_lockstep ∨ s.hil_actuator_controls_msg_n < 300) then (s, [])
  else
    let sysTimeMsgs : List OutMsg :=
      if s.sys_time_throttle_counter % 1000 ≠ 0 then [OutMsg.systemTime] else []
    let s1 : LoopState σ :=
      { s with
        sys_time_throttle_counter := s.sys_time_throttle_counter + 1
        should_reply_lockstep := false }
    let telemetry_due : Prop :=
      s.hil_state_quaternion_message_frequency < s.time - s.last_autopilot_telemetry
    if telemetry_due then
      ({ s1 with last_autopilot_telemetry := s.time },
       sysTimeMsgs ++ [OutMsg.hilGps, OutMsg.hilSensor, OutMsg.hilStateQuaternion])
    else
      (s1, sysTimeMsgs ++ [OutMsg.hilGps, OutMsg.hilSensor])

/-- Dynamics step functions feeding Drone::update.  `integrate` stands for
DynamicObject::update (the RK stepper of the caelus_fdm package, not among
the sources at hand) and `correct` for the state rewrite performed by
Drone::fake_ground_transform (modelled concretely in Part 2). -/
structure DynFns (σ : Type) where
  integrate : σ → σ
  correct : σ → σ

/-- Drone::update (corrector variant), one tick: MAVLinkSystem::update (no
phase of the spec's tick; it is not the queue drain, which the source calls
explicitly below), then DynamicObject::update (integrate), then
fake_ground_transform (correct), then _process_mavlink_messages (drain),
then _publish_state (publish).  Returns the new state, the outbound frames
in enqueue order, and the phase trace in execution order. -/
def Drone.update {σ : Type} (dyn : DynFns σ) (inbox : List InMsg)
    (s : LoopState σ) : LoopState σ × List OutMsg × List Phase :=
  let s1 := { s with dyn := dyn.integrate s.dyn }
  let s2 := { s1 with dyn := dyn.correct s1.dyn }
  let r3 := Drone.process_mavlink_messages inbox s2
  let r4 := Drone.publish_state r3.1
  (r4.1, r3.2 ++ r4.2, [Phase.integrate, Phase.correct, Phase.drain, Phase.publish])

/- ========================================================================
   Part 2: ground-contact corrector (Drone.cpp) and sensor encoder
   (DroneStateEncoder.h).  The 12-dimensional state vector and its
   derivative are modelled as functions Fin 12 → ℝ.
   ======================================================================== -/

/-- G_FORCE constant (9.81f) from DroneStateEncoder.h / Drone.cpp. -/
def G_FORCE : ℝ := 9.81

/-- Modelled from the spec: `ground_height` is declared in Drone.h, which is
not among the sources at hand.  The spec places the flat runway plane
`z_ground` at 0 (§8 scenario 3: the corrector snaps `x[2] = 0`; §3: when not
airborne `x[2]` equals the ground plane). -/
def ground_height : ℝ := 0

/-- Drone::fake_ground_transform.  `dt` is the tick length in seconds,
`vz` and `az` are the earth-frame z velocity and acceleration that the
source obtains from the sensors (Sensors::get_earth_frame_velocity and
body2earth · body acceleration; that code is not among the sources at hand,
so the two scalars are taken as inputs); the earth-frame z position is
`s 2` (spec §3: `x[0..2]` is the body origin in earth NED).  When the
contact condition holds the source writes `state[2] = 0`, zeroes
`state[3..5]`, `state[6..8]`, `state[9..11]`, zeroes `dx_state[3..5]` and
then sets `dx_state[5] = G_FORCE`; otherwise it leaves both vectors
untouched. -/
noncomputable def fake_ground_transform (dt vz az : ℝ) (s dx : Fin 12 → ℝ) :
    (Fin 12 → ℝ) × (Fin 12 → ℝ) :=
  if ground_height - 0.001 ≤ s 2 ∧ 0 ≤ vz + az * dt then
    (fun i => if 2 ≤ i.val then 0 else s i,
     fun i => if i.val = 5 then G_FORCE
              else if i.val = 3 ∨ i.val = 4 then 0
              else dx i)
  else (s, dx)

/-- Truncation of a real toward zero, the conversion a C cast from a
floating-point value to an integer type performs. -/
noncomputable def truncZ (r : ℝ) : ℤ :=
  if 0 ≤ r then ⌊r⌋ else ⌈r⌉

/-- Wrap an integer into the int16_t range, modelling storage into a 16-bit
signed variable. -/
def wrap16 (z : ℤ) : ℤ :=
  (z + 32768) % 65536 - 32768

/-- DroneStateEncoder::get_ground_speed: each component of dx[0..2] is first
stored into an int16_t (truncation), then multiplied by 100 in int16
arithmetic (m/s → cm/s). -/
noncomputable def get_ground_speed (dx : Fin 12 → ℝ) : Fin 3 → ℤ :=
  fun i => wrap16 (100 * wrap16 (truncZ (dx ⟨i.val, by omega⟩)))

/-- Drone::get_environment_wind: the override in Drone.cpp always returns the
zero vector (m/s). -/
def Drone.get_environment_wind : Fin 3 → ℝ :=
  fun _ => 0

/-- DroneStateEncoder::get_true_wind_speed with the environment wind supplied
by the virtual get_environment_wind: cumulative wind is
`-(ground_speed + wind·100)` (cm/s), and its Euclidean norm is cast to
uint16_t (the norm of three int16 values is below 2^16, so the cast is plain
truncation). -/
noncomputable def get_true_wind_speed (wind : Fin 3 → ℝ) (dx : Fin 12 → ℝ) : ℤ :=
  let gs := get_ground_speed dx
  let w : Fin 3 → ℝ := fun i => ((gs i : ℝ) + wind i * 100) * (-1)
  ⌊Real.sqrt (w 0 ^ 2 + w 1 ^ 2 + w 2 ^ 2)⌋

/-- Four-quadrant arctangent with the C library's atan2 semantics,
atan2 y x = angle of the point (x, y). -/
noncomputable def atan2 (y x : ℝ) : ℝ :=
  if 0 < x then Real.arctan (y / x)
  else if x < 0 ∧ 0 ≤ y then Real.arctan (y / x) + Real.pi
  else if x < 0 then Real.arctan (y / x) - Real.pi
  else if 0 < y then Real.pi / 2
  else if y < 0 then -(Real.pi / 2)
  else 0

/-- DroneStateEncoder::get_course_over_ground before the uint16 cast:
`atan2(xyz_dot[0], xyz_dot[1]) · 180/π · 100` with xyz_dot = x[3..5]
(note the x/y argument ordering of the source). -/
noncomputable def get_course_over_ground (s : Fin 12 → ℝ) : ℝ :=
  atan2 (s 3) (s 4) * 180 / Real.pi * 100

/-- HIL_GPS fields packed by DroneStateEncoder::hil_gps_msg.  Positions are
taken from the already-converted `(lat, lon, alt)` triple (the geodesy
conversion convertState2LlA lives in the caelus_fdm package, not among the
sources at hand, so the triple is a parameter). -/
structure HilGps where
  fix_type : Nat
  lat : ℤ
  lon : ℤ
  alt : ℤ
  eph : Nat
  epv : Nat
  cog : Nat
  sat_visible : Nat

/-- DroneStateEncoder::hil_gps_msg.  The local `course_over_ground` variable
is initialised to 0 and never reassigned — get_course_over_ground is not
called anywhere in this function — so the packed cog field is always 0.
The pack call receives `lon_lat_alt[1]` for lat and `lon_lat_alt[0]` for
lon (the lat/lon swap of the source); eph = 0.3f·100, epv = 0.4f·100,
fix type 3, satellites UINT8_MAX. -/
def hil_gps_msg (lat_lon_alt : Fin 3 → ℤ) : HilGps :=
  { fix_type := 3
    lat := lat_lon_alt 1
    lon := lat_lon_alt 0
    alt := lat_lon_alt 2
    eph := 30
    epv := 40
    cog := 0
    sat_visible := 255 }

/-- DroneStateEncoder::euler_to_quaterions (sic): Euler roll/pitch/yaw to
quaternion (q_x, q_y, q_z, q_w), transcribed from the source. -/
noncomputable def euler_to_quaterions (roll pitch yaw : ℝ) : ℝ × ℝ × ℝ × ℝ :=
  (Real.sin (roll/2) * Real.cos (pitch/2) * Real.cos (yaw/2) -
     Real.cos (roll/2) * Real.sin (pitch/2) * Real.sin (yaw/2),
   Real.cos (roll/2) * Real.sin (pitch/2) * Real.cos (yaw/2) +
     Real.sin (roll/2) * Real.cos (pitch/2) * Real.sin (yaw/2),
   Real.cos (roll/2) * Real.cos (pitch/2) * Real.sin (yaw/2) -
     Real.sin (roll/2) * Real.sin (pitch/2) * Real.cos (yaw/2),
   Real.cos (roll/2) * Real.cos (pitch/2) * Real.cos (yaw/2) +
     Real.sin (roll/2) * Real.sin (pitch/2) * Real.sin (yaw/2))

/-- Standard ZYX Euler-to-quaternion formula, written from the spec's words
(§4.6 HIL_STATE_QUATERNION), for comparison with the source transcription. -/
noncomputable def specZYXQuaternion (phi theta psi : ℝ) : ℝ × ℝ × ℝ × ℝ :=
  (Real.sin (phi/2) * Real.cos (theta/2) * Real.cos (psi/2) -
     Real.cos (phi/2) * Real.sin (theta/2) * Real.sin (psi/2),
   Real.cos (phi/2) * Real.sin (theta/2) * Real.cos (psi/2) +
     Real.sin (phi/2) * Real.cos (theta/2) * Real.sin (psi/2),
   Real.cos (phi/2) * Real.cos (theta/2) * Real.sin (psi/2) -
     Real.sin (phi/2) * Real.sin (theta/2) * Real.cos (psi/2),
   Real.cos (phi/2) * Real.cos (theta/2) * Real.cos (psi/2) +
     Real.sin (phi/2) * Real.sin (theta/2) * Real.sin (psi/2))

/-- HIL_STATE_QUATERNION fields relevant to the verification, as packed by
DroneStateEncoder::hil_state_quaternion_msg (geodesy and acceleration fields
that no claim touches are omitted). -/
structure HilStateQuat where
  attitude : ℝ × ℝ × ℝ × ℝ
  rollspeed : ℝ
  pitchspeed : ℝ
  yawspeed : ℝ
  vx : ℤ
  vy : ℤ
  vz : ℤ
  ind_airspeed : ℤ
  true_airspeed : ℤ

/-- DroneStateEncoder::hil_state_quaternion_msg: attitude from
euler_to_quaterions on x[6..8], rates from x[9..11], ground speed from
get_ground_speed, and get_true_wind_speed (with the Drone's environment
wind) packed into both airspeed fields. -/
noncomputable def hil_state_quaternion_msg (s dx : Fin 12 → ℝ) : HilStateQuat :=
  { attitude := euler_to_quaterions (s 6) (s 7) (s 8)
    rollspeed := s 9
    pitchspeed := s 10
    yawspeed := s 11
    vx := get_ground_speed dx 0
    vy := get_ground_speed dx 1
    vz := get_ground_speed dx 2
    ind_airspeed := get_true_wind_speed Drone.get_environment_wind dx
    true_airspeed := get_true_wind_speed Drone.get_environment_wind dx }

/-- K_Pb: static pressure at sea level, Pa (DroneStateEncoder.h). -/
def K_Pb : ℝ := 101325

/-- K_Tb: standard temperature at sea level, K (DroneStateEncoder.h). -/
def K_Tb : ℝ := 288.15

/-- K_Lb: standard temperature lapse rate, K/m (DroneStateEncoder.h). -/
def K_Lb : ℝ := -0.0065

/-- K_M: molar mass of Earth's air, kg/mol (DroneStateEncoder.h). -/
def K_M : ℝ := 0.0289644

/-- K_G: gravity constant of the barometric formula (DroneStateEncoder.h). -/
def K_G : ℝ := 9.80665

/-- K_R: universal gas constant (DroneStateEncoder.h). -/
def K_R : ℝ := 8.31432

/-- Troposphere branch of DroneStateEncoder::alt_to_baro:
`K_Pb · (K_Tb / (K_Tb + K_Lb·alt)) ^ (K_G·K_M / (K_R·K_Lb))`. -/
noncomputable def baroTropo (alt : ℝ) : ℝ :=
  K_Pb * (K_Tb / (K_Tb + K_Lb * alt)) ^ ((K_G * K_M) / (K_R * K_Lb))

/-- DroneStateEncoder::alt_to_baro.  For alt ≤ 11000 the troposphere power
law; for 11000 < alt ≤ 20000 the source recursively evaluates
alt_to_baro(11000) — which resolves to the troposphere branch — and applies
`pow(M_E, (−K_G·K_M·(alt−11000)) / (K_R·(K_Tb + 11000·K_Lb)))`, i.e. the
exponential continuation anchored at 11000 m; above 20000 m the result is
0. -/
noncomputable def alt_to_baro (alt : ℝ) : ℝ :=
  if alt ≤ 11000 then baroTropo alt
  else if alt ≤ 20000 then
    baroTropo 11000 *
      Real.exp ((-K_G) * K_M * (alt - 11000) / (K_R * (K_Tb + 11000 * K_Lb)))
  else 0

/- ========================================================================
   Part 3: concrete scenario material used to instantiate the theorems.
   ======================================================================== -/

/-- Identity dynamics over a trivial dynamics state, for scenarios in which
the dynamics play no role. -/
def idDyn : DynFns Unit :=
  { integrate := id, correct := id }

/-- Modelled from the spec: the controller fields start at zero/false
(§4.7 lists the state; the counters count from the first message/tick), with
an open relay connection. -/
def initLoopState : LoopState Unit :=
  { dyn := ()
    connection_open := true
    should_reply_lockstep := false
    hil_actuator_controls_msg_n := 0
    sys_time_throttle_counter := 0
    armed := false
    hil_state_quaternion_message_frequency := 0
    last_autopilot_telemetry := 0
    time := 0
    thrust_propellers := fun _ => 0
    ailerons := fun _ => 0
    vtol_propellers := fun _ => 0 }

/-- One tick of Drone::update with an empty inbound queue (the lockstep
bootstrap scenario: no HIL_ACTUATOR_CONTROLS is ever received). -/
def tickNoInput (s : LoopState Unit) : LoopState Unit :=
  (Drone.update idDyn [] s).1

/-- Controller state after n empty-inbox ticks from the initial state. -/
def runTicks (n : Nat) : LoopState Unit :=
  Nat.iterate tickNoInput n initLoopState

/-- State vector of a vehicle moving north at 1 m/s body-x and otherwise at
rest: x[3] = 1, all other entries 0. -/
noncomputable def northState : Fin 12 → ℝ :=
  fun i => if i.val = 3 then 1 else 0

/- ========================================================================
   Part 4: helper lemmas about the loop controller.
   ======================================================================== -/

/-- The publish step never changes the relay snapshot, the actuator-message
counter, or the dynamics state. -/
theorem publish_state_preserves {σ : Type} (s : LoopState σ) :
    (Drone.publish_state s).1.connection_open = s.connection_open ∧
    (Drone.publish_state s).1.hil_actuator_controls_msg_n =
      s.hil_actuator_controls_msg_n ∧
    (Drone.publish_state s).1.dyn = s.dyn := by
  simp only [Drone.publish_state]
  split_ifs <;> exact ⟨rfl, rfl, rfl⟩

/-- Telemetry frames leave the publish step exactly when the relay is open
and the lockstep gate passes. -/
theorem publish_state_nonempty_iff {σ : Type} (s : LoopState σ) :
    (Drone.publish_state s).2 ≠ [] ↔
      (s.connection_open = true ∧
        (s.should_reply_lockstep = true ∨ s.hil_actuator_controls_msg_n < 300)) := by
  simp only [Drone.publish_state]
  split_ifs with h1 h2 <;> simp_all

/-- Processing one inbound frame changes neither the relay snapshot nor the
dynamics state. -/
theorem process_message_preserves {σ : Type} (s : LoopState σ) (m : InMsg) :
    (Drone.process_mavlink_message s m).1.connection_open = s.connection_open ∧
    (Drone.process_mavlink_message s m).1.dyn = s.dyn := by
  cases m <;> exact ⟨rfl, rfl⟩

/-- Draining the inbound queue changes neither the relay snapshot nor the
dynamics state. -/
theorem drain_preserves {σ : Type} (inbox : List InMsg) (s : LoopState σ) :
    (Drone.process_mavlink_messages inbox s).1.connection_open =
      s.connection_open ∧
    (Drone.process_mavlink_messages inbox s).1.dyn = s.dyn := by
  induction inbox generalizing s with
  | nil => exact ⟨rfl, rfl⟩
  | cons m rest ih =>
    have h1 := process_message_preserves s m
    have h2 := ih (Drone.process_mavlink_message s m).1
    exact ⟨h2.1.trans h1.1, h2.2.trans h1.2⟩

/-- Every frame the drain phase enqueues is a COMMAND_ACK with result 0. -/
theorem drain_out_acks {σ : Type} (inbox : List InMsg) (s : LoopState σ) :
    ∀ m ∈ (Drone.process_mavlink_messages inbox s).2,
      ∃ c, m = OutMsg.commandAck c 0 := by
  induction inbox generalizing s with
  | nil => intro m hm; cases hm
  | cons msg rest ih =>
    intro m hm
    rw [Drone.process_mavlink_messages] at hm
    rcases List.mem_append.mp hm with hl | hr
    · cases msg with
      | heartbeat => cases hl
      | hilActuatorControls mode controls => cases hl
      | commandLong cmd p1 p2 tsys tcomp =>
        rcases List.mem_singleton.mp hl with rfl
        exact ⟨cmd, rfl⟩
      | unknown => cases hl
    · exact ih _ m hr

/-- With an empty inbound queue a tick never changes the actuator-message
counter or the relay snapshot. -/
theorem tickNoInput_preserves (s : LoopState Unit) :
    (tickNoInput s).hil_actuator_controls_msg_n =
      s.hil_actuator_controls_msg_n ∧
    (tickNoInput s).connection_open = s.connection_open := by
  have h := publish_state_preserves
    ({ s with dyn := idDyn.correct (idDyn.integrate s.dyn) } : LoopState Unit)
  exact ⟨h.2.1, h.1⟩

/-- In the bootstrap scenario the counter stays 0 and the relay stays open. -/
theorem runTicks_invariant (n : Nat) :
    (runTicks n).hil_actuator_controls_msg_n = 0 ∧
    (runTicks n).connection_open = true := by
  induction n with
  | zero => exact ⟨rfl, rfl⟩
  | succ n ih =>
    have hstep : runTicks (n + 1) = tickNoInput (runTicks n) := by
      unfold runTicks
      exact Function.iterate_succ_apply' tickNoInput n initLoopState
    rw [hstep]
    have h := tickNoInput_preserves (runTicks n)
    exact ⟨h.1.trans ih.1, h.2.trans ih.2⟩

/- ========================================================================
   Part 5: claim theorems for the loop controller.
   ======================================================================== -/

/-- One tick with an empty inbound queue enqueues exactly the frames of the
publish step, applied after the dynamics phases. -/
theorem update_empty_out {σ : Type} (dyn : DynFns σ) (s : LoopState σ) :
    (Drone.update dyn [] s).2.1 =
      (Drone.publish_state
        ({ s with dyn := dyn.correct (dyn.integrate s.dyn) } : LoopState σ)).2 :=
  rfl

/-- One empty-inbox tick publishes telemetry exactly when the relay is open
and the lockstep gate passes on the pre-tick controller state. -/
theorem update_empty_nonempty_iff {σ : Type} (dyn : DynFns σ) (s : LoopState σ) :
    (Drone.update dyn [] s).2.1 ≠ [] ↔
      (s.connection_open = true ∧
        (s.should_reply_lockstep = true ∨
          s.hil_actuator_controls_msg_n < 300)) := by
  rw [update_empty_out]
  exact publish_state_nonempty_iff
    ({ s with dyn := dyn.correct (dyn.integrate s.dyn) } : LoopState σ)

/-- C2 (amended): telemetry leaves a tick exactly when the relay is open and
the lockstep gate (should_reply_lockstep ∨ hil_actuator_controls_msg_n < 300)
passes; and because hil_actuator_controls_msg_n counts received
HIL_ACTUATOR_CONTROLS messages — not ticks — a run in which no such message
is ever received keeps the counter at 0, so every tick (tick 301 included)
publishes telemetry; the gate never closes. -/
theorem c2_lockstep_gate :
    (∀ (σ : Type) (s : LoopState σ),
      (Drone.publish_state s).2 ≠ [] ↔
        (s.connection_open = true ∧
          (s.should_reply_lockstep = true ∨
            s.hil_actuator_controls_msg_n < 300))) ∧
    (∀ n : Nat, (Drone.update idDyn [] (runTicks n)).2.1 ≠ []) := by
  constructor
  · intro σ s
    exact publish_state_nonempty_iff s
  · intro n
    refine (update_empty_nonempty_iff idDyn (runTicks n)).mpr
      ⟨(runTicks_invariant n).2, Or.inr ?_⟩
    have h := (runTicks_invariant n).1
    omega

/-- C2 counterexample: in the bootstrap scenario (no HIL_ACTUATOR_CONTROLS
ever received), tick 301 — the tick leaving state runTicks 300 — still
publishes telemetry, contrary to the claim that tick 301 does not. -/
theorem c2_counterexample :
    (Drone.update idDyn [] (runTicks 300)).2.1 ≠ [] := by
  refine (update_empty_nonempty_iff idDyn (runTicks 300)).mpr
    ⟨(runTicks_invariant 300).2, Or.inr ?_⟩
  have h := (runTicks_invariant 300).1
  omega

/-- A closed relay makes the publish step a no-op. -/
theorem publish_state_closed {σ : Type} (s : LoopState σ)
    (h : s.connection_open = false) : Drone.publish_state s = (s, []) := by
  simp only [Drone.publish_state]
  rw [if_pos]
  simp [h]

/-- C4: the publish step emits SYSTEM_TIME exactly when the gate passes and
the pre-increment throttle counter is NOT a multiple of 1000 — the test
`sys_time_throttle_counter++ % 1000` is true on the nonzero remainders — so
on the first publishing tick (counter 0, a multiple of 1000) no SYSTEM_TIME
is emitted while on the second (counter 1) one is: the inverse of the
claimed 1-in-1000 cadence. -/
theorem c4_system_time_throttle_inverted :
    (∀ (σ : Type) (s : LoopState σ),
      OutMsg.systemTime ∈ (Drone.publish_state s).2 ↔
        (s.connection_open = true ∧
          (s.should_reply_lockstep = true ∨
            s.hil_actuator_controls_msg_n < 300) ∧
          s.sys_time_throttle_counter % 1000 ≠ 0)) ∧
    OutMsg.systemTime ∉ (Drone.publish_state initLoopState).2 ∧
    OutMsg.systemTime ∈
      (Drone.publish_state
        ({ initLoopState with sys_time_throttle_counter := 1 } :
          LoopState Unit)).2 := by
  refine ⟨?_, by with_unfolding_all decide, by with_unfolding_all decide⟩
  intro σ s
  simp only [Drone.publish_state]
  split_ifs with h1 h2 h3 h4 <;> simp_all

/-- C5 (amended): during a tick with a closed relay no telemetry frame is
enqueued and the dynamics still advance, but — contrary to the claim that
enqueue_message is never called — a COMMAND_ACK is still enqueued for every
COMMAND_LONG drained, because _process_command_long_message never consults
connection_open. -/
theorem c5_closed_relay {σ : Type} (dyn : DynFns σ) (inbox : List InMsg)
    (s : LoopState σ) (h : s.connection_open = false) :
    (∀ m ∈ (Drone.update dyn inbox s).2.1, ∃ c, m = OutMsg.commandAck c 0) ∧
    (Drone.update dyn inbox s).1.dyn = dyn.correct (dyn.integrate s.dyn) := by
  have hsplit : (Drone.update dyn inbox s).2.1 =
      (Drone.process_mavlink_messages inbox
        ({ s with dyn := dyn.correct (dyn.integrate s.dyn) } : LoopState σ)).2 ++
      (Drone.publish_state
        (Drone.process_mavlink_messages inbox
          ({ s with dyn := dyn.correct (dyn.integrate s.dyn) } : LoopState σ)).1).2 :=
    rfl
  have hconn : (Drone.process_mavlink_messages inbox
      ({ s with dyn := dyn.correct (dyn.integrate s.dyn) } :
        LoopState σ)).1.connection_open = false :=
    (drain_preserves inbox _).1.trans h
  have hpub := publish_state_closed _ hconn
  constructor
  · intro m hm
    rw [hsplit, hpub] at hm
    rcases List.mem_append.mp hm with hl | hr
    · exact drain_out_acks inbox _ m hl
    · cases hr
  · have h1 : (Drone.update dyn inbox s).1 =
        (Drone.publish_state
          (Drone.process_mavlink_messages inbox
            ({ s with dyn := dyn.correct (dyn.integrate s.dyn) } :
              LoopState σ)).1).1 := rfl
    rw [h1]
    exact ((publish_state_preserves _).2.2).trans ((drain_preserves inbox _).2)

/-- C5 counterexample: a tick with a closed relay and one pending
COMMAND_LONG still enqueues a frame (the COMMAND_ACK), so the claim that
enqueue_message is never called during such a tick is false. -/
theorem c5_counterexample :
    (Drone.update idDyn [InMsg.commandLong 511 0 50000 0 0]
      ({ initLoopState with connection_open := false } :
        LoopState Unit)).2.1 ≠ [] := by
  with_unfolding_all decide

/-- C5 witness: the amended theorem applied at a concrete closed-relay tick. -/
theorem c5_witness :
    ({ initLoopState with connection_open := false } :
        LoopState Unit).connection_open = false ∧
    (Drone.update idDyn []
      ({ initLoopState with connection_open := false } :
        LoopState Unit)).1.dyn =
      idDyn.correct (idDyn.integrate
        ({ initLoopState with connection_open := false } :
          LoopState Unit).dyn) :=
  ⟨rfl, (c5_closed_relay idDyn [] _ rfl).2⟩

/-- C6: processing a COMMAND_LONG enqueues exactly one COMMAND_ACK carrying
the command id and result 0; when the command is SET_MESSAGE_INTERVAL the
telemetry frequency becomes param2 (µs), and for any other command id the
controller state is unchanged. -/
theorem c6_set_message_interval {σ : Type} (s : LoopState σ)
    (cmd : Nat) (p1 p2 : ℚ) (ts tc : Nat) :
    (Drone.process_command_long s cmd p1 p2 ts tc).2 =
      [OutMsg.commandAck cmd 0] ∧
    (Drone.process_command_long s cmd p1 p2 ts
        tc).1.hil_state_quaternion_message_frequency =
      (if cmd = MAV_CMD_SET_MESSAGE_INTERVAL then p2
       else s.hil_state_quaternion_message_frequency) ∧
    (cmd = MAV_CMD_SET_MESSAGE_INTERVAL →
      (Drone.process_command_long s cmd p1 p2 ts tc).1 =
        { s with hil_state_quaternion_message_frequency := p2 }) ∧
    (cmd ≠ MAV_CMD_SET_MESSAGE_INTERVAL →
      (Drone.process_command_long s cmd p1 p2 ts tc).1 = s) := by
  refine ⟨rfl, rfl, ?_, ?_⟩
  · intro h
    simp [Drone.process_command_long, h]
  · intro h
    simp [Drone.process_command_long, h]

/-- C6 witness: the theorem applied at the spec's concrete scenario
(SET_MESSAGE_INTERVAL with param2 = 50000 µs) and at an unknown command. -/
theorem c6_witness :
    ((511 : Nat) = MAV_CMD_SET_MESSAGE_INTERVAL ∧
      (Drone.process_command_long initLoopState 511 0 50000 0 0).1 =
        { initLoopState with hil_state_quaternion_message_frequency := 50000 }) ∧
    ((0 : Nat) ≠ MAV_CMD_SET_MESSAGE_INTERVAL ∧
      (Drone.process_command_long initLoopState 0 0 0 0 0).1 = initLoopState) :=
  ⟨⟨rfl,
    (c6_set_message_interval initLoopState 511 0 50000 0 0).2.2.1 rfl⟩,
   ⟨by decide,
    (c6_set_message_interval initLoopState 0 0 0 0 0).2.2.2 (by decide)⟩⟩

/-- C9 (amended): within a tick of Drone::update the phases run in the order
integrate (DynamicObject::update), correct (fake_ground_transform), drain
(_process_mavlink_messages), publish (_publish_state) — dynamics before the
inbound drain, not after it. -/
theorem c9_phase_order {σ : Type} (dyn : DynFns σ) (inbox : List InMsg)
    (s : LoopState σ) :
    (Drone.update dyn inbox s).2.2 =
      [Phase.integrate, Phase.correct, Phase.drain, Phase.publish] ∧
    (Drone.update dyn inbox s).1 =
      (Drone.publish_state
        (Drone.process_mavlink_messages inbox
          ({ s with dyn := dyn.correct (dyn.integrate s.dyn) } :
            LoopState σ)).1).1 :=
  ⟨rfl, rfl⟩

/-- C9 counterexample: the phase trace of a tick is not the claimed order
drain → integrate → correct → publish. -/
theorem c9_counterexample :
    (Drone.update idDyn [] initLoopState).2.2 ≠
      [Phase.drain, Phase.integrate, Phase.correct, Phase.publish] := by
  with_unfolding_all decide

/- ========================================================================
   Part 6: claim theorems for the corrector and the sensor encoder.
   ======================================================================== -/

/-- C1: whenever the ground-contact condition (down position within ε of the
ground plane and earth-frame v_z + a_z·dt ≥ 0) holds, the corrector snaps
x[2] to the ground plane, zeroes x[3..11] (velocity, orientation, rates),
leaves x[0..1] alone, and sets dx[3..5] = (0, 0, G_FORCE) leaving the other
derivative entries alone; when the condition fails it changes nothing. -/
theorem c1_fake_ground (dt vz az : ℝ) (s dx : Fin 12 → ℝ) :
    (ground_height - 0.001 ≤ s 2 ∧ 0 ≤ vz + az * dt →
      ((fake_ground_transform dt vz az s dx).1 2 = ground_height ∧
       (∀ i : Fin 12, 3 ≤ i.val →
         (fake_ground_transform dt vz az s dx).1 i = 0) ∧
       (fake_ground_transform dt vz az s dx).1 0 = s 0 ∧
       (fake_ground_transform dt vz az s dx).1 1 = s 1 ∧
       (fake_ground_transform dt vz az s dx).2 3 = 0 ∧
       (fake_ground_transform dt vz az s dx).2 4 = 0 ∧
       (fake_ground_transform dt vz az s dx).2 5 = G_FORCE ∧
       (∀ i : Fin 12, i.val ≤ 2 ∨ 6 ≤ i.val →
         (fake_ground_transform dt vz az s dx).2 i = dx i))) ∧
    (¬ (ground_height - 0.001 ≤ s 2 ∧ 0 ≤ vz + az * dt) →
      fake_ground_transform dt vz az s dx = (s, dx)) := by
  constructor
  · intro h
    simp only [fake_ground_transform, if_pos h]
    refine ⟨?_, ?_, ?_, ?_, ?_, ?_, ?_, ?_⟩
    · show (if 2 ≤ (2 : Fin 12).val then (0:ℝ) else s 2) = ground_height
      rw [if_pos (by decide)]
      rw [ground_height]
    · intro i hi
      show (if 2 ≤ i.val then (0:ℝ) else s i) = 0
      rw [if_pos (by omega)]
    · show (if 2 ≤ (0 : Fin 12).val then (0:ℝ) else s 0) = s 0
      rw [if_neg (by decide)]
    · show (if 2 ≤ (1 : Fin 12).val then (0:ℝ) else s 1) = s 1
      rw [if_neg (by decide)]
    · show (if (3 : Fin 12).val = 5 then G_FORCE
            else if (3 : Fin 12).val = 3 ∨ (3 : Fin 12).val = 4 then (0:ℝ)
            else dx 3) = 0
      rw [if_neg (by decide), if_pos (by decide)]
    · show (if (4 : Fin 12).val = 5 then G_FORCE
            else if (4 : Fin 12).val = 3 ∨ (4 : Fin 12).val = 4 then (0:ℝ)
            else dx 4) = 0
      rw [if_neg (by decide), if_pos (by decide)]
    · show (if (5 : Fin 12).val = 5 then G_FORCE
            else if (5 : Fin 12).val = 3 ∨ (5 : Fin 12).val = 4 then (0:ℝ)
            else dx 5) = G_FORCE
      rw [if_pos (by decide)]
    · intro i hi
      show (if i.val = 5 then G_FORCE
            else if i.val = 3 ∨ i.val = 4 then (0:ℝ) else dx i) = dx i
      rw [if_neg (by omega), if_neg (by omega)]
  · intro h
    simp only [fake_ground_transform, if_neg h]

/-- C1 witness: the corrector theorem applied to a descending grounded state
(x[2] = 1 ≥ −0.001, v_z = 1, a_z = 0, dt = 0.01). -/
theorem c1_witness :
    (ground_height - 0.001 ≤ (fun _ : Fin 12 => (1:ℝ)) 2 ∧
      (0:ℝ) ≤ 1 + 0 * 0.01) ∧
    (fake_ground_transform 0.01 1 0 (fun _ => 1) (fun _ => 2)).1 2 =
      ground_height := by
  have hc : ground_height - 0.001 ≤ (fun _ : Fin 12 => (1:ℝ)) 2 ∧
      (0:ℝ) ≤ 1 + 0 * 0.01 := by
    constructor
    · show ground_height - 0.001 ≤ (1:ℝ)
      rw [ground_height]
      norm_num
    · norm_num
  exact ⟨hc, ((c1_fake_ground 0.01 1 0 (fun _ => 1) (fun _ => 2)).1 hc).1⟩

/-- C3: the HIL_GPS message always carries course_over_ground = 0 because
hil_gps_msg never calls the helper; yet the helper
get_course_over_ground evaluated at a vehicle moving north at 1 m/s
(x[3] = 1, x[4] = 0) yields 9000 cdeg, which the claim says the message
should carry.  The claim fails on every state whose course is nonzero. -/
theorem c3_course_over_ground_dead :
    (∀ lla : Fin 3 → ℤ, (hil_gps_msg lla).cog = 0) ∧
    get_course_over_ground northState = 9000 ∧ (9000 : ℝ) ≠ 0 := by
  refine ⟨fun lla => rfl, ?_, by norm_num⟩
  unfold get_course_over_ground
  have h3 : northState 3 = 1 := by
    show (if (3 : Fin 12).val = 3 then (1:ℝ) else 0) = 1
    rw [if_pos (by decide)]
  have h4 : northState 4 = 0 := by
    show (if (4 : Fin 12).val = 3 then (1:ℝ) else 0) = 0
    rw [if_neg (by decide)]
  rw [h3, h4]
  have hatan : atan2 1 0 = Real.pi / 2 := by
    unfold atan2
    rw [if_neg (by norm_num), if_neg (by norm_num), if_neg (by norm_num),
      if_pos (by norm_num)]
  rw [hatan]
  have hπ : Real.pi ≠ 0 := Real.pi_ne_zero
  field_simp
  ring

/-- C7: the source's euler_to_quaterions agrees componentwise with the
standard ZYX Euler-to-quaternion formula of the spec, and at (0,0,0) it
yields the identity quaternion (0,0,0,1). -/
theorem c7_euler_to_quaternion (roll pitch yaw : ℝ) :
    euler_to_quaterions roll pitch yaw = specZYXQuaternion roll pitch yaw ∧
    euler_to_quaterions 0 0 0 = (0, 0, 0, 1) := by
  refine ⟨rfl, ?_⟩
  unfold euler_to_quaterions
  norm_num

/-- C10: the Drone's environment wind override is identically zero, so the
true-wind/airspeed value packed (twice) into HIL_STATE_QUATERNION is exactly
the truncated Euclidean norm of the int16-truncated cm/s ground-speed
vector, independent of any environment wind. -/
theorem c10_true_wind_zero_env (s dx : Fin 12 → ℝ) :
    (∀ i : Fin 3, Drone.get_environment_wind i = 0) ∧
    (hil_state_quaternion_msg s dx).true_airspeed =
      ⌊Real.sqrt ((get_ground_speed dx 0 : ℝ) ^ 2 +
        (get_ground_speed dx 1 : ℝ) ^ 2 + (get_ground_speed dx 2 : ℝ) ^ 2)⌋ ∧
    (hil_state_quaternion_msg s dx).ind_airspeed =
      (hil_state_quaternion_msg s dx).true_airspeed := by
  refine ⟨fun i => rfl, ?_, rfl⟩
  show get_true_wind_speed Drone.get_environment_wind dx = _
  unfold get_true_wind_speed Drone.get_environment_wind
  have harg : ∀ a : ℝ, ((a + 0 * 100) * (-1)) ^ 2 = a ^ 2 := fun a => by ring
  simp only [harg]


/- ========================================================================
   Part 7: the ISA barometric formula (C8).  The numeric bound at 11000 m is
   obtained by bracketing log(288.15/216.65) with the Taylor series of
   log(1-x) at x = 1430/5763, multiplying by the exact rational exponent of
   the power law, and bracketing the resulting exponential with the Taylor
   series of exp at half the argument.
   ======================================================================== -/

/-- Rational bracketing of log(288.15/216.65) = log(5763/4333), from nine
terms of the Taylor series of log(1-x) with the series remainder bound. -/
theorem baro_log_bounds :
    (0.2851967 : ℝ) ≤ Real.log (5763 / 4333) ∧
      Real.log (5763 / 4333) ≤ 0.2851991 := by
  have hxpos : (0:ℝ) < 1430/5763 := by norm_num
  have habs : |(1430/5763 : ℝ)| = 1430/5763 := abs_of_pos hxpos
  have hx : |(1430/5763 : ℝ)| < 1 := by
    rw [habs]
    norm_num
  have h := Real.abs_log_sub_add_sum_range_le hx 9
  rw [habs] at h
  have h1x : (1:ℝ) - 1430/5763 = 4333/5763 := by norm_num
  rw [h1x] at h
  have hinv : Real.log ((4333:ℝ)/5763) = - Real.log (5763/4333) := by
    rw [show ((4333:ℝ)/5763) = ((5763:ℝ)/4333)⁻¹ by norm_num, Real.log_inv]
  rw [hinv] at h
  have h' := abs_le.mp h
  have hSlo : (0.28519791:ℝ) ≤ ∑ i ∈ Finset.range 9, (1430/5763:ℝ) ^ (i+1) / (i+1) := by
    simp only [Finset.sum_range_succ, Finset.sum_range_zero]
    push_cast
    norm_num
  have hShi : (∑ i ∈ Finset.range 9, (1430/5763:ℝ) ^ (i+1) / (i+1)) ≤ 0.28519792 := by
    simp only [Finset.sum_range_succ, Finset.sum_range_zero]
    push_cast
    norm_num
  have hE : ((1430:ℝ)/5763) ^ 10 / (1 - 1430/5763) ≤ 0.00000118 := by norm_num
  constructor
  · linarith [h'.2]
  · linarith [h'.1]

/-- Rational lower bound on exp at the lower bracket of the power-law
exponent halved, from twelve Taylor terms with the remainder bound. -/
theorem exp_taylor_lo : (0.47260961 : ℝ) ≤ Real.exp (-0.74948557) := by
  have habs : |(-0.74948557 : ℝ)| = 0.74948557 := by
    rw [abs_of_neg] <;> norm_num
  have hx : |(-0.74948557 : ℝ)| ≤ 1 := by
    rw [habs]
    norm_num
  have h := @Real.exp_bound (-0.74948557) hx 12 (by norm_num)
  rw [habs] at h
  have h' := (abs_le.mp h).1
  have hT : (0.472609614:ℝ) ≤
      ∑ m ∈ Finset.range 12, (-0.74948557:ℝ) ^ m / (Nat.factorial m) := by
    simp only [Finset.sum_range_succ, Finset.sum_range_zero]
    norm_num [Nat.factorial]
  have hErr : (0.74948557:ℝ) ^ 12 * ((12:ℕ).succ / ((Nat.factorial 12) * 12)) ≤
      0.000000001 := by
    norm_num [Nat.factorial]
  linarith

/-- Rational upper bound on exp at the upper bracket of the power-law
exponent halved, from twelve Taylor terms with the remainder bound. -/
theorem exp_taylor_hi : Real.exp (-0.74947925) ≤ 0.47261261 := by
  have habs : |(-0.74947925 : ℝ)| = 0.74947925 := by
    rw [abs_of_neg] <;> norm_num
  have hx : |(-0.74947925 : ℝ)| ≤ 1 := by
    rw [habs]
    norm_num
  have h := @Real.exp_bound (-0.74947925) hx 12 (by norm_num)
  rw [habs] at h
  have h' := (abs_le.mp h).2
  have hT : (∑ m ∈ Finset.range 12, (-0.74947925:ℝ) ^ m / (Nat.factorial m)) ≤
      0.472612602 := by
    simp only [Finset.sum_range_succ, Finset.sum_range_zero]
    norm_num [Nat.factorial]
  have hErr : (0.74947925:ℝ) ^ 12 * ((12:ℕ).succ / ((Nat.factorial 12) * 12)) ≤
      0.000000001 := by
    norm_num [Nat.factorial]
  linarith


/-- C8: alt_to_baro follows the piecewise ISA formula: exactly 101325 Pa at
altitude 0; 22632 Pa to within 1 Pa at 11000 m; the exponential
continuation anchored at 11000 m on (11000, 20000]; and 0 above 20000 m. -/
theorem c8_alt_to_baro :
    alt_to_baro 0 = 101325 ∧
    |alt_to_baro 11000 - 22632| ≤ 1 ∧
    (∀ alt : ℝ, 11000 < alt → alt ≤ 20000 →
      alt_to_baro alt = alt_to_baro 11000 *
        Real.exp ((-K_G) * K_M * (alt - 11000) /
          (K_R * (K_Tb + 11000 * K_Lb)))) ∧
    (∀ alt : ℝ, 20000 < alt → alt_to_baro alt = 0) := by
  have h11 : alt_to_baro 11000 = baroTropo 11000 := by
    simp only [alt_to_baro]
    rw [if_pos (by norm_num)]
  refine ⟨?_, ?_, ?_, ?_⟩
  · simp only [alt_to_baro]
    rw [if_pos (by norm_num)]
    simp only [baroTropo]
    rw [show K_Tb / (K_Tb + K_Lb * 0) = 1 by unfold K_Tb K_Lb; norm_num,
      Real.one_rpow, mul_one, K_Pb]
  · rw [h11]
    simp only [baroTropo]
    rw [show K_Tb / (K_Tb + K_Lb * 11000) = 5763/4333 by unfold K_Tb K_Lb; norm_num,
      show (K_G * K_M) / (K_R * K_Lb) = -(676294603/128674000 : ℝ) by
        unfold K_G K_M K_R K_Lb; norm_num,
      Real.rpow_def_of_pos (by norm_num : (0:ℝ) < 5763/4333), K_Pb]
    set L := Real.log (5763 / 4333) with hLdef
    have hL := baro_log_bounds
    set A := L * -(676294603/128674000 : ℝ) with hAdef
    have hAlo : (-1.49897114 : ℝ) ≤ A := by
      rw [hAdef]
      nlinarith [hL.2]
    have hAhi : A ≤ (-1.49895850 : ℝ) := by
      rw [hAdef]
      nlinarith [hL.1]
    have hsplit : Real.exp A = Real.exp (A/2) * Real.exp (A/2) := by
      rw [← Real.exp_add, add_halves]
    have ht_lo : (0.47260961 : ℝ) ≤ Real.exp (A/2) := by
      refine le_trans exp_taylor_lo (Real.exp_le_exp.mpr ?_)
      linarith
    have ht_hi : Real.exp (A/2) ≤ 0.47261261 := by
      refine le_trans (Real.exp_le_exp.mpr ?_) exp_taylor_hi
      linarith
    have hexp_lo : (0.2233598 : ℝ) ≤ Real.exp A := by
      rw [hsplit]
      nlinarith [ht_lo, ht_hi]
    have hexp_hi : Real.exp A ≤ (0.2233627 : ℝ) := by
      rw [hsplit]
      nlinarith [ht_lo, ht_hi]
    rw [abs_le]
    constructor <;> nlinarith [hexp_lo, hexp_hi]
  · intro alt hlo hhi
    rw [h11]
    simp only [alt_to_baro]
    rw [if_neg (not_le.mpr hlo), if_pos hhi]
  · intro alt hgt
    simp only [alt_to_baro]
    rw [if_neg (by linarith), if_neg (by linarith)]

/-- C8 witness: the quantified branches of the theorem applied at the
concrete altitudes 12000 m and 25000 m. -/
theorem c8_witness :
    ((11000:ℝ) < 12000 ∧ (12000:ℝ) ≤ 20000 ∧
      alt_to_baro 12000 = alt_to_baro 11000 *
        Real.exp ((-K_G) * K_M * ((12000:ℝ) - 11000) /
          (K_R * (K_Tb + 11000 * K_Lb)))) ∧
    ((20000:ℝ) < 25000 ∧ alt_to_baro 25000 = 0) :=
  ⟨⟨by norm_num, by norm_num,
    c8_alt_to_baro.2.2.1 12000 (by norm_num) (by norm_num)⟩,
   ⟨by norm_num, c8_alt_to_baro.2.2.2 25000 (by norm_num)⟩⟩
